import Mathlib

/-!
# Verification of the dcompass upstream resolution engine

Shallow embedding of `src/filter.rs` (the `Filter` router) and
`droute/src/router/upstreams/upstream/builder.rs` (the upstream builders)
of the dcompass DNS router, together with proofs about configuration
validation, query dispatch, and builder behaviour.

External collaborators (the trust-dns resolver library, the file system,
tokio transports) are modelled as explicit capability parameters: a file
system is a function from paths to file contents, a resolver constructor
is a function from resolver configurations to resolvers, and a resolver's
`lookup` is a function from a domain and record type to a result.
-/

set_option autoImplicit false

namespace Dcompass

/-! ## DNS message model (the fragment of trust-dns-proto used by `filter.rs`) -/

/-- DNS record types; the router only inspects whether the type is `AAAA`. -/
inductive RecordType where
  | A
  | AAAA
  | CNAME
  | MX
  | NS
  | TXT
  deriving DecidableEq, Repr

/-- DNS opcodes, carried through unchanged by the router. -/
inductive OpCode where
  | Query
  | Status
  | Notify
  | Update
  deriving DecidableEq, Repr

/-- Query/Response marker in the DNS header. -/
inductive MessageType where
  | Query
  | Response
  deriving DecidableEq, Repr

/-- DNS response codes; the router only ever produces `NXDomain` itself. -/
inductive ResponseCode where
  | NoError
  | FormErr
  | ServFail
  | NXDomain
  | NotImp
  | Refused
  deriving DecidableEq, Repr

/-- An opaque resource record (the router moves records around verbatim). -/
structure Record where
  rdata : Nat
  deriving DecidableEq, Repr

/-- The fragment of `trust_dns_proto::op::Message` the router reads or writes:
the header fields it touches (`id`, `op_code`), the remaining header fields it
carries, and the four record sections. -/
structure Message where
  id : Nat
  op_code : OpCode
  message_type : MessageType
  response_code : ResponseCode
  queries : List Nat
  answers : List Record
  name_servers : List Record
  additionals : List Record
  deriving DecidableEq, Repr

/-- `Message::error_msg(id, op_code, response_code)`: a fresh response message
carrying the given id, opcode and response code, with all sections empty. -/
def Message.error_msg (id : Nat) (op : OpCode) (code : ResponseCode) : Message :=
  { id := id
    op_code := op
    message_type := MessageType.Response
    response_code := code
    queries := []
    answers := []
    name_servers := []
    additionals := [] }

/-- `Message::add_answers`: append records to the answer section, leaving every
other field unchanged. -/
def Message.add_answers (m : Message) (records : List Record) : Message :=
  { m with answers := m.answers ++ records }

/-- `DnsRequestOptions` as passed by `Filter::resolve`. -/
structure DnsRequestOptions where
  expects_multiple_responses : Bool
  deriving DecidableEq, Repr

/-- The result of a successful resolver lookup: a bag of resource records
(`lookup.record_iter().cloned().collect()`). -/
structure Lookup where
  records : List Record

/-- A `TokioAsyncResolver` as used by the router: an opaque capability whose
`lookup(domain, qtype, options)` either yields records or fails. -/
structure TokioAsyncResolver where
  lookup : String → RecordType → DnsRequestOptions → Except String Lookup

/-! ## The hashbrown `HashMap<u32, _>` as an association list -/

/-- `HashMap::get` on an association-list model of `hashbrown::HashMap`. -/
def hmGet {α : Type} (m : List (Nat × α)) (k : Nat) : Option α :=
  (m.find? (fun p => p.1 == k)).map Prod.snd

/-- `HashMap::insert`: the new binding shadows any previous binding of `k`. -/
def hmInsert {α : Type} (m : List (Nat × α)) (k : Nat) (v : α) : List (Nat × α) :=
  (k, v) :: m.filter (fun p => p.1 != k)

/-! ## The domain matcher

Modelled from the spec: the `dmatcher` crate (the Domain Matcher of §4.1) is a
workspace member of this repository whose source is not under `src/`. Per the
spec it is "a suffix-trie keyed by reversed domain labels, mapping a domain
name to a routing tag": `insert(domain, tag)` adds a routing key,
`insert_lines(text, tag)` inserts one key per non-empty line of `text`, and
`matches(domain)` returns the tag of the most specific (longest) configured
suffix of `domain`, aligned on label boundaries, or `none`. We represent the
trie by its list of inserted `(reversed-label-list, tag)` entries. -/

/-- Split a character list at every occurrence of `sep` (Rust `str::split`). -/
def splitOnChar (sep : Char) : List Char → List (List Char)
  | [] => [[]]
  | c :: rest =>
    match splitOnChar sep rest with
    | [] => [[]]
    | h :: t => if c = sep then [] :: h :: t else (c :: h) :: t

/-- The reversed label list of a domain: split on `.` and reverse. -/
def revLabels (cs : List Char) : List (List Char) :=
  (splitOnChar '.' cs).reverse

/-- The domain matcher, represented by its inserted entries. -/
structure Dmatcher (T : Type) where
  entries : List (List (List Char) × T)

/-- `Dmatcher::new()`: an empty matcher. -/
def Dmatcher.new {T : Type} : Dmatcher T := ⟨[]⟩

/-- `Dmatcher::insert(domain, dst)`: record the reversed-label key for
`domain` with tag `dst`. -/
def Dmatcher.insert {T : Type} (m : Dmatcher T) (domain : String) (dst : T) :
    Dmatcher T :=
  ⟨m.entries ++ [(revLabels domain.data, dst)]⟩

/-- `Dmatcher::insert_lines(data, dst)`: insert every non-empty line of
`data` as a key with tag `dst`. -/
def Dmatcher.insert_lines {T : Type} (m : Dmatcher T) (data : String) (dst : T) :
    Dmatcher T :=
  (splitOnChar (Char.ofNat 10) data.data).foldl
    (fun acc line => if line = [] then acc else acc.insert (String.mk line) dst) m

/-- Pick the entry with the longest key among a list of candidate entries. -/
def bestEntry {T : Type} : List (List (List Char) × T) → Option (List (List Char) × T)
  | [] => none
  | e :: rest =>
    match bestEntry rest with
    | none => some e
    | some b => if b.1.length < e.1.length then some e else some b

/-- `Dmatcher::matches(domain)`: the tag of the most specific configured
suffix of `domain` (label-aligned, longest suffix wins), or `none`. -/
def Dmatcher.matches {T : Type} (m : Dmatcher T) (domain : String) : Option T :=
  (bestEntry (m.entries.filter
    (fun e => e.1.isPrefixOf (revLabels domain.data)))).map Prod.snd

/-! ## Configuration records (`parser.rs` structures consumed by `filter.rs`) -/

/-- A routing rule: a rule-file path and a destination tag. -/
structure Rule where
  path : String
  dst : Nat
  deriving DecidableEq, Repr

/-- The transport method of a configured upstream. -/
inductive UpstreamKind where
  | Udp
  | Tls (tls_name : String)
  | Https (tls_name : String)
  deriving DecidableEq, Repr

/-- An IP address, opaque to the router. -/
abbrev IpAddr := Nat

/-- One upstream declaration from the configuration. -/
structure UpstreamConfig where
  tag : Nat
  method : UpstreamKind
  ips : List IpAddr
  port : Nat
  cache_size : Nat
  timeout : Nat
  deriving DecidableEq, Repr

/-- A listen socket address, opaque to the router. -/
abbrev SocketAddr := Nat

/-- A log verbosity level, opaque to the router. -/
abbrev LevelFilter := Nat

/-- The parsed top-level configuration (`parser::Parsed`); JSON decoding by
serde is an external collaborator, so `Filter.new` consumes the parsed
structure directly. -/
structure Parsed where
  rules : List Rule
  upstreams : List UpstreamConfig
  default_tag : Nat
  disable_ipv6 : Bool
  address : SocketAddr
  workers : Nat
  verbosity : LevelFilter

/-! ## trust-dns resolver configuration (the fragment built by
`Filter::insert_upstreams`) -/

/-- A trust-dns name-server group, identified by which constructor built it. -/
inductive NameServerConfigGroup where
  | from_ips_tls (ips : List IpAddr) (port : Nat) (tls_name : String)
  | from_ips_clear (ips : List IpAddr) (port : Nat)
  deriving DecidableEq, Repr

/-- `ResolverConfig::from_parts(None, vec![], group)`. -/
structure ResolverConfig where
  domain : Option String
  search : List String
  group : NameServerConfigGroup
  deriving DecidableEq, Repr

/-- The resolver options set by `Filter::insert_upstreams`. -/
structure ResolverOpts where
  cache_size : Nat
  distrust_nx_responses : Bool
  timeout : Nat
  deriving DecidableEq, Repr

/-- The capability that builds a `TokioAsyncResolver` from a configuration
(`TokioAsyncResolver::tokio`); construction may fail. -/
abbrev MkResolver := ResolverConfig → ResolverOpts → Except String TokioAsyncResolver

/-- The file-system capability used by `Filter::insert_rules`: reading the
file at a path either yields its contents or fails. -/
abbrev FileSystem := String → Except String String

/-! ## The Filter (router) itself -/

/-- The router state (`struct Filter` in `filter.rs`). -/
structure Filter where
  resolvers : List (Nat × TokioAsyncResolver)
  default_tag : Nat
  disable_ipv6 : Bool
  matcher : Dmatcher Nat
  dsts : List Nat

/-- `Filter::insert_rules`, processing rules in order with accumulated matcher
and dst list: read each rule file, insert its lines, and record the dst tag. -/
def insertRulesGo (fs : FileSystem) (m : Dmatcher Nat) (v : List Nat) :
    List Rule → Except String (Dmatcher Nat × List Nat)
  | [] => Except.ok (m, v)
  | r :: rest =>
    match fs r.path with
    | Except.error e => Except.error e
    | Except.ok data => insertRulesGo fs (m.insert_lines data r.dst) (v ++ [r.dst]) rest

/-- `Filter::insert_rules(rules)`: build the matcher from the rule files and
collect the list of destination tags; fails if any rule file cannot be read. -/
def Filter.insert_rules (fs : FileSystem) (rules : List Rule) :
    Except String (Dmatcher Nat × List Nat) :=
  insertRulesGo fs Dmatcher.new [] rules

/-- The name-server group chosen for an upstream's method: `Tls` and `Https`
both use `NameServerConfigGroup::from_ips_tls`, `Udp` uses `from_ips_clear`. -/
def nsGroup (method : UpstreamKind) (ips : List IpAddr) (port : Nat) :
    NameServerConfigGroup :=
  match method with
  | UpstreamKind.Tls tls_name => NameServerConfigGroup.from_ips_tls ips port tls_name
  | UpstreamKind.Udp => NameServerConfigGroup.from_ips_clear ips port
  | UpstreamKind.Https tls_name => NameServerConfigGroup.from_ips_tls ips port tls_name

/-- The single resolver built for one upstream declaration: options with the
declared cache size and timeout and `distrust_nx_responses = false`, and a
`ResolverConfig::from_parts(None, vec![], group)` configuration. -/
def buildEntry (mk : MkResolver) (u : UpstreamConfig) :
    Except String TokioAsyncResolver :=
  mk { domain := none, search := [], group := nsGroup u.method u.ips u.port }
    { cache_size := u.cache_size, distrust_nx_responses := false, timeout := u.timeout }

/-- `Filter::insert_upstreams`, processing declarations in order into the
accumulated resolver map. -/
def insertUpstreamsGo (mk : MkResolver) (r : List (Nat × TokioAsyncResolver)) :
    List UpstreamConfig → Except String (List (Nat × TokioAsyncResolver))
  | [] => Except.ok r
  | u :: rest =>
    match buildEntry mk u with
    | Except.error e => Except.error e
    | Except.ok res => insertUpstreamsGo mk (hmInsert r u.tag res) rest

/-- `Filter::insert_upstreams(upstreams)`: build the tag→resolver map. -/
def Filter.insert_upstreams (mk : MkResolver) (upstreams : List UpstreamConfig) :
    Except String (List (Nat × TokioAsyncResolver)) :=
  insertUpstreamsGo mk [] upstreams

/-- The loop of `Filter::check` over `self.dsts`: each dst tag must be a key
of the resolver map. -/
def checkDsts (resolvers : List (Nat × TokioAsyncResolver)) :
    List Nat → Except String Unit
  | [] => Except.ok ()
  | d :: rest =>
    match hmGet resolvers d with
    | some _ => checkDsts resolvers rest
    | none => Except.error ("Missing resolver: " ++ toString d)

/-- `Filter::check(default)`: every rule dst tag and the default tag must be
keys of the resolver map. -/
def Filter.check (f : Filter) (dflt : Nat) : Except String Unit :=
  match checkDsts f.resolvers f.dsts with
  | Except.error e => Except.error e
  | Except.ok () =>
    match hmGet f.resolvers dflt with
    | some _ => Except.ok ()
    | none => Except.error ("Missing default resolver: " ++ toString dflt)

/-- `Filter::new(data)` after serde parsing: build the matcher and dst list
from the rules, build the resolver map from the upstreams, validate with
`check(default_tag)`, and return the filter with the listener parameters. -/
def Filter.new (fs : FileSystem) (mk : MkResolver) (p : Parsed) :
    Except String (Filter × SocketAddr × Nat × LevelFilter) :=
  match Filter.insert_rules fs p.rules with
  | Except.error e => Except.error e
  | Except.ok (matcher, dsts) =>
    match Filter.insert_upstreams mk p.upstreams with
    | Except.error e => Except.error e
    | Except.ok resolvers =>
      match Filter.check ⟨resolvers, p.default_tag, p.disable_ipv6, matcher, dsts⟩
          p.default_tag with
      | Except.error e => Except.error e
      | Except.ok () =>
        Except.ok (⟨resolvers, p.default_tag, p.disable_ipv6, matcher, dsts⟩,
          p.address, p.workers, p.verbosity)

/-- `Filter::get_resolver(domain)`: the matcher's tag if it yields one, else
the default tag, looked up in the resolver map; a missing entry is an error. -/
def Filter.get_resolver (f : Filter) (domain : String) :
    Except String TokioAsyncResolver :=
  match f.matcher.matches domain with
  | some u =>
    match hmGet f.resolvers u with
    | some r => Except.ok r
    | none => Except.error ("Missing resolver: " ++ toString u)
  | none =>
    match hmGet f.resolvers f.default_tag with
    | some r => Except.ok r
    | none => Except.error ("Missing default resolver: " ++ toString f.default_tag)

/-- `Filter::resolve(domain, qtype, req)`: short-circuit AAAA queries when
IPv6 is disabled; otherwise select a resolver (propagating its error with
`?`), perform the lookup, and either append the records to the request or
return an NXDOMAIN error message. -/
def Filter.resolve (f : Filter) (domain : String) (qtype : RecordType)
    (req : Message) : Except String Message :=
  if qtype = RecordType.AAAA ∧ f.disable_ipv6 = true then
    Except.ok (Message.error_msg req.id req.op_code ResponseCode.NXDomain)
  else
    match f.get_resolver domain with
    | Except.error e => Except.error e
    | Except.ok r =>
      match r.lookup domain qtype { expects_multiple_responses := false } with
      | Except.error _ =>
        Except.ok (Message.error_msg req.id req.op_code ResponseCode.NXDomain)
      | Except.ok lk => Except.ok (req.add_answers lk.records)

end Dcompass

namespace Droute

/-!
## The upstream builders (`droute/src/router/upstreams/upstream/builder.rs`)

`Udp::new` / `Https::new` perform transport I/O and are external; the claims
under verification only concern the hybrid builder (which performs no I/O)
and the serde field defaults of the UDP and HTTPS builders, so the pooled
variant carries an opaque transport handle.
-/

/-- A `Label` tagging an upstream. -/
abbrev Label := String

/-- The upstream build error type, opaque here. -/
abbrev QHandleError := String

/-- A connection pool handle (`ConnPool`): one transport plus a timeout. -/
structure ConnPool where
  transport : Nat
  timeout : Nat
  deriving DecidableEq, Repr

/-- The runtime `Upstream`: a hybrid race over tags, or a pooled transport. -/
inductive Upstream where
  | Hybrid (tags : List Label)
  | Others (pool : ConnPool)
  deriving DecidableEq, Repr

/-- Default value for the `timeout` field when the configuration omits it. -/
def default_timeout : Nat := 5

/-- A builder for a hybrid upstream: the list of member tags. -/
structure HybridBuilder where
  tags : List Label
  deriving DecidableEq, Repr

/-- `HybridBuilder::new()`: an empty hybrid builder. -/
def HybridBuilder.new : HybridBuilder := ⟨[]⟩

/-- `HybridBuilder::add_tag(tag)`: append one more member tag. -/
def HybridBuilder.add_tag (b : HybridBuilder) (tag : Label) : HybridBuilder :=
  ⟨b.tags ++ [tag]⟩

/-- `<HybridBuilder as AsyncTryInto<Upstream>>::async_try_into`: succeed
immediately with `Upstream::Hybrid` over the builder's tags; no I/O. -/
def HybridBuilder.async_try_into (b : HybridBuilder) :
    Except QHandleError Upstream :=
  Except.ok (Upstream.Hybrid b.tags)

/-- A builder for a UDP upstream. -/
structure UdpBuilder where
  addr : Dcompass.SocketAddr
  timeout : Nat
  deriving DecidableEq, Repr

/-- A builder for a DNS-over-HTTPS upstream. -/
structure HttpsBuilder where
  uri : String
  addr : Dcompass.IpAddr
  proxy : Option String
  timeout : Nat
  sni : Bool
  deriving DecidableEq, Repr

/-- A UDP builder configuration document: the `timeout` field may be absent
(`none`), in which case serde applies `default_timeout`. -/
structure UdpDoc where
  addr : Dcompass.SocketAddr
  timeout : Option Nat
  deriving DecidableEq, Repr

/-- An HTTPS builder configuration document: `timeout` and `sni` may be
absent, in which case serde applies `default_timeout` and `bool::default()`
(`false`) respectively; an absent `proxy` is simply `None`. -/
structure HttpsDoc where
  uri : String
  addr : Dcompass.IpAddr
  proxy : Option String
  timeout : Option Nat
  sni : Option Bool
  deriving DecidableEq, Repr

/-- Deserializing a `UdpBuilder`: serde fills an omitted `timeout` with
`default_timeout()`. -/
def UdpBuilder.from_doc (d : UdpDoc) : UdpBuilder :=
  { addr := d.addr, timeout := d.timeout.getD default_timeout }

/-- Deserializing an `HttpsBuilder`: serde fills an omitted `timeout` with
`default_timeout()` and an omitted `sni` with `false`. -/
def HttpsBuilder.from_doc (d : HttpsDoc) : HttpsBuilder :=
  { uri := d.uri
    addr := d.addr
    proxy := d.proxy
    timeout := d.timeout.getD default_timeout
    sni := d.sni.getD false }

end Droute

namespace Dcompass

/-! ## Concrete configurations used to exhibit the theorems on closed inputs -/

/-- A file system where every file reads as the single domain `a.b`. -/
def fs0 : FileSystem := fun _ => Except.ok "a.b"

/-- A resolver whose every lookup fails (no network reachable). -/
def res0 : TokioAsyncResolver := ⟨fun _ _ _ => Except.error "no network"⟩

/-- A resolver constructor that always yields `res0`. -/
def mk0 : MkResolver := fun _ _ => Except.ok res0

/-- A well-formed configuration: one rule with dst tag 1, upstreams tagged 1
and 2, default tag 2. -/
def p0 : Parsed :=
  { rules := [{ path := "list.txt", dst := 1 }]
    upstreams := [⟨1, UpstreamKind.Udp, [11], 53, 0, 5⟩, ⟨2, UpstreamKind.Udp, [12], 53, 0, 5⟩]
    default_tag := 2
    disable_ipv6 := false
    address := 0
    workers := 1
    verbosity := 0 }

/-- The filter `Filter.new fs0 mk0 p0` produces. -/
def flt0 : Filter :=
  { resolvers := [(2, res0), (1, res0)]
    default_tag := 2
    disable_ipv6 := false
    matcher := ⟨[([[ 'b' ], [ 'a' ]], 1)]⟩
    dsts := [1] }

/-- A plain request message used as a concrete input. -/
def msg0 : Message :=
  { id := 7
    op_code := OpCode.Query
    message_type := MessageType.Query
    response_code := ResponseCode.NoError
    queries := [3]
    answers := [⟨9⟩]
    name_servers := []
    additionals := [] }

/-- A filter with IPv6 disabled. -/
def flt1 : Filter :=
  { resolvers := []
    default_tag := 0
    disable_ipv6 := true
    matcher := Dmatcher.new
    dsts := [] }

/-- A filter value whose resolver map is empty: `check` never succeeded on
it, and no such value is produced by `Filter.new`. -/
def fltBad : Filter :=
  { resolvers := []
    default_tag := 0
    disable_ipv6 := false
    matcher := Dmatcher.new
    dsts := [] }

/-- A resolver whose every lookup fails with `boom`. -/
def resFail : TokioAsyncResolver := ⟨fun _ _ _ => Except.error "boom"⟩

/-- A filter routing everything to the always-failing resolver. -/
def flt5 : Filter :=
  { resolvers := [(0, resFail)]
    default_tag := 0
    disable_ipv6 := false
    matcher := Dmatcher.new
    dsts := [] }

/-- A resolver whose every lookup succeeds with one record. -/
def resOk : TokioAsyncResolver := ⟨fun _ _ _ => Except.ok ⟨[⟨42⟩]⟩⟩

/-- A filter routing everything to the always-succeeding resolver. -/
def flt6 : Filter :=
  { resolvers := [(0, resOk)]
    default_tag := 0
    disable_ipv6 := false
    matcher := Dmatcher.new
    dsts := [] }

/-- A file system where no file can be read. -/
def fsBad : FileSystem := fun _ => Except.error "io error"

/-- A rule list with a single (unreadable, under `fsBad`) rule file. -/
def rulesBad : List Rule := [{ path := "missing.txt", dst := 1 }]

/-- A configuration whose rule file is unreadable under `fsBad`. -/
def pBad : Parsed :=
  { rules := rulesBad
    upstreams := [⟨1, UpstreamKind.Udp, [11], 53, 0, 5⟩]
    default_tag := 1
    disable_ipv6 := false
    address := 0
    workers := 1
    verbosity := 0 }

/-! ## Helper lemmas -/

/-- The `checkDsts` loop succeeds exactly when every listed tag is a key of
the resolver map. -/
theorem checkDsts_ok_iff (resolvers : List (Nat × TokioAsyncResolver)) (l : List Nat) :
    checkDsts resolvers l = Except.ok () ↔
      ∀ d ∈ l, (hmGet resolvers d).isSome = true := by
  induction l with
  | nil => simp [checkDsts]
  | cons d rest ih =>
    constructor
    · intro h x hx
      cases hd : hmGet resolvers d with
      | some r =>
        simp only [checkDsts, hd] at h
        rcases List.mem_cons.mp hx with rfl | hx'
        · simp [hd]
        · exact (ih.mp h) x hx'
      | none => simp [checkDsts, hd] at h
    · intro h
      have hd : (hmGet resolvers d).isSome = true := h d (List.mem_cons_self d rest)
      rcases Option.isSome_iff_exists.mp hd with ⟨r, hr⟩
      simp only [checkDsts, hr]
      exact ih.mpr (fun x hx => h x (List.mem_cons_of_mem d hx))

/-- `Filter.check` succeeds exactly when every dst tag and the default tag
are keys of the resolver map. -/
theorem check_ok_iff (f : Filter) (dflt : Nat) :
    f.check dflt = Except.ok () ↔
      ((∀ d ∈ f.dsts, (hmGet f.resolvers d).isSome = true) ∧
        (hmGet f.resolvers dflt).isSome = true) := by
  constructor
  · intro h
    unfold Filter.check at h
    split at h
    · simp at h
    · rename_i hc
      split at h
      · rename_i r hd
        exact ⟨(checkDsts_ok_iff f.resolvers f.dsts).mp hc, by simp [hd]⟩
      · simp at h
  · intro h
    unfold Filter.check
    have hc := (checkDsts_ok_iff f.resolvers f.dsts).mpr h.1
    simp only [hc]
    obtain ⟨r, hr⟩ := Option.isSome_iff_exists.mp h.2
    simp only [hr]

/-- The best (longest-key) entry among a candidate list is one of them. -/
theorem bestEntry_mem {T : Type} {l : List (List (List Char) × T)}
    {e : List (List Char) × T} (h : bestEntry l = some e) : e ∈ l := by
  induction l with
  | nil => simp [bestEntry] at h
  | cons a rest ih =>
    simp only [bestEntry] at h
    split at h
    · simp only [Option.some.injEq] at h
      exact h ▸ List.mem_cons_self a rest
    · rename_i b hb
      by_cases hlen : b.1.length < a.1.length
      · rw [if_pos hlen] at h
        simp only [Option.some.injEq] at h
        exact h ▸ List.mem_cons_self a rest
      · rw [if_neg hlen] at h
        simp only [Option.some.injEq] at h
        exact List.mem_cons_of_mem a (ih (h ▸ hb))

/-- Any tag the matcher yields is the tag of one of its entries. -/
theorem matches_mem {T : Type} {m : Dmatcher T} {domain : String} {t : T}
    (h : m.matches domain = some t) : ∃ e ∈ m.entries, e.2 = t := by
  unfold Dmatcher.matches at h
  rcases Option.map_eq_some'.mp h with ⟨e, he, h2⟩
  exact ⟨e, List.mem_of_mem_filter (bestEntry_mem he), h2⟩

/-- Folding line insertions over a matcher only adds entries with the given
tag. -/
theorem foldl_insert_tags {T : Type} (dst : T) :
    ∀ (lines : List (List Char)) (m : Dmatcher T),
      ∀ e ∈ (lines.foldl
        (fun acc line => if line = [] then acc else acc.insert (String.mk line) dst)
        m).entries,
      e ∈ m.entries ∨ e.2 = dst := by
  intro lines
  induction lines with
  | nil => intro m e he; exact Or.inl he
  | cons l rest ih =>
    intro m e he
    simp only [List.foldl_cons] at he
    rcases ih _ e he with h | h
    · by_cases hl : l = []
      · rw [if_pos hl] at h; exact Or.inl h
      · rw [if_neg hl] at h
        unfold Dmatcher.insert at h
        simp only [List.mem_append, List.mem_singleton] at h
        rcases h with h | h
        · exact Or.inl h
        · exact Or.inr (by rw [h])
    · exact Or.inr h

/-- `Dmatcher.insert_lines` only adds entries with the given tag. -/
theorem insert_lines_tags {T : Type} (data : String) (dst : T) (m : Dmatcher T) :
    ∀ e ∈ (m.insert_lines data dst).entries, e ∈ m.entries ∨ e.2 = dst :=
  foldl_insert_tags dst (splitOnChar (Char.ofNat 10) data.data) m

/-- Invariant of the `insert_rules` loop: if every matcher entry's tag is
already collected, the final matcher's tags are all collected. -/
theorem insertRulesGo_tags (fs : FileSystem) :
    ∀ (rules : List Rule) (m : Dmatcher Nat) (v : List Nat)
      (M : Dmatcher Nat) (V : List Nat),
      insertRulesGo fs m v rules = Except.ok (M, V) →
      (∀ e ∈ m.entries, e.2 ∈ v) →
      ∀ e ∈ M.entries, e.2 ∈ V := by
  intro rules
  induction rules with
  | nil =>
    intro m v M V h hinv
    simp only [insertRulesGo, Except.ok.injEq, Prod.mk.injEq] at h
    obtain ⟨rfl, rfl⟩ := h
    exact hinv
  | cons r rest ih =>
    intro m v M V h hinv
    simp only [insertRulesGo] at h
    cases hf : fs r.path with
    | error e => rw [hf] at h; simp at h
    | ok data =>
      rw [hf] at h
      refine ih (m.insert_lines data r.dst) (v ++ [r.dst]) M V h ?_
      intro e he
      rcases insert_lines_tags data r.dst m e he with h1 | h1
      · exact List.mem_append_left _ (hinv e h1)
      · rw [h1]; exact List.mem_append_right _ (by simp)

/-- Any filter `Filter.new` hands out has passed `check`, and every tag its
matcher can yield is among its recorded dst tags. -/
theorem new_ok_parts (fs : FileSystem) (mk : MkResolver) (p : Parsed)
    (flt : Filter) (a : SocketAddr) (w : Nat) (vb : LevelFilter)
    (h : Filter.new fs mk p = Except.ok (flt, a, w, vb)) :
    flt.check flt.default_tag = Except.ok () ∧
    ∀ e ∈ flt.matcher.entries, e.2 ∈ flt.dsts := by
  unfold Filter.new at h
  split at h
  · simp at h
  · rename_i matcher dsts hr
    split at h
    · simp at h
    · rename_i resolvers hu
      split at h
      · simp at h
      · rename_i hc
        simp only [Except.ok.injEq, Prod.mk.injEq] at h
        obtain ⟨rfl, -, -, -⟩ := h
        refine ⟨hc, ?_⟩
        exact insertRulesGo_tags fs p.rules Dmatcher.new [] matcher dsts hr
          (fun e he => absurd he (List.not_mem_nil e))

/-- For a filter satisfying `check` whose matcher tags all lie in its dst
list, `get_resolver` always succeeds. -/
theorem get_resolver_total (f : Filter)
    (hc : f.check f.default_tag = Except.ok ())
    (hm : ∀ e ∈ f.matcher.entries, e.2 ∈ f.dsts) (domain : String) :
    ∃ r, f.get_resolver domain = Except.ok r := by
  obtain ⟨hd, hdef⟩ := (check_ok_iff f f.default_tag).mp hc
  unfold Filter.get_resolver
  cases hmt : f.matcher.matches domain with
  | some u =>
    obtain ⟨e, he, he2⟩ := matches_mem hmt
    have hs : (hmGet f.resolvers u).isSome = true := hd u (he2 ▸ hm e he)
    obtain ⟨r, hr⟩ := Option.isSome_iff_exists.mp hs
    exact ⟨r, by simp only [hr]⟩
  | none =>
    obtain ⟨r, hr⟩ := Option.isSome_iff_exists.mp hdef
    exact ⟨r, by simp only [hr]⟩

/-- For a filter satisfying `check` whose matcher tags all lie in its dst
list, `resolve` always succeeds. -/
theorem resolve_total (f : Filter)
    (hc : f.check f.default_tag = Except.ok ())
    (hm : ∀ e ∈ f.matcher.entries, e.2 ∈ f.dsts)
    (domain : String) (qtype : RecordType) (req : Message) :
    ∃ msg, f.resolve domain qtype req = Except.ok msg := by
  unfold Filter.resolve
  by_cases hif : qtype = RecordType.AAAA ∧ f.disable_ipv6 = true
  · exact ⟨_, by rw [if_pos hif]⟩
  · rw [if_neg hif]
    obtain ⟨r, hr⟩ := get_resolver_total f hc hm domain
    cases hl : r.lookup domain qtype { expects_multiple_responses := false } with
    | error e =>
      exact ⟨Message.error_msg req.id req.op_code ResponseCode.NXDomain,
        by simp only [hr, hl]⟩
    | ok lk => exact ⟨req.add_answers lk.records, by simp only [hr, hl]⟩

/-- The `insert_rules` loop fails whenever some listed rule's file is
unreadable. -/
theorem insertRulesGo_err (fs : FileSystem) :
    ∀ (rules : List Rule) (m : Dmatcher Nat) (v : List Nat),
      (∃ r ∈ rules, ∃ e, fs r.path = Except.error e) →
      ∃ e2, insertRulesGo fs m v rules = Except.error e2 := by
  intro rules
  induction rules with
  | nil =>
    intro m v h
    obtain ⟨r, hr, -⟩ := h
    exact absurd hr (List.not_mem_nil r)
  | cons r0 rest ih =>
    intro m v h
    obtain ⟨r, hr, e, he⟩ := h
    cases hf : fs r0.path with
    | error e0 => exact ⟨e0, by simp [insertRulesGo, hf]⟩
    | ok data =>
      rcases List.mem_cons.mp hr with rfl | hr'
      · rw [hf] at he; simp at he
      · obtain ⟨e2, h2⟩ := ih (m.insert_lines data r0.dst) (v ++ [r0.dst]) ⟨r, hr', e, he⟩
        exact ⟨e2, by simp [insertRulesGo, hf, h2]⟩

/-- The `insert_rules` loop never succeeds if any listed rule's file is
unreadable, so no filter is produced from such a rule list. -/
theorem insert_rules_err (fs : FileSystem) (rules : List Rule)
    (h : ∃ r ∈ rules, ∃ e, fs r.path = Except.error e) :
    ∃ e2, Filter.insert_rules fs rules = Except.error e2 :=
  insertRulesGo_err fs rules Dmatcher.new [] h

/-- One insertion step of `insert_upstreams` is determined by `buildEntry`
and the tag, so upstreams with equal tags and equal built entries are
interchangeable anywhere in the upstream list. -/
theorem insertUpstreamsGo_congr (mk : MkResolver) (u1 u2 : UpstreamConfig)
    (htag : u1.tag = u2.tag) (hb : buildEntry mk u1 = buildEntry mk u2) :
    ∀ (us1 : List UpstreamConfig) (r : List (Nat × TokioAsyncResolver))
      (us2 : List UpstreamConfig),
      insertUpstreamsGo mk r (us1 ++ u1 :: us2) =
        insertUpstreamsGo mk r (us1 ++ u2 :: us2) := by
  intro us1
  induction us1 with
  | nil =>
    intro r us2
    simp only [List.nil_append, insertUpstreamsGo]
    rw [hb, htag]
  | cons u rest ih =>
    intro r us2
    simp only [List.cons_append, insertUpstreamsGo]
    cases hbu : buildEntry mk u with
    | error e => rfl
    | ok res => exact ih (hmInsert r u.tag res) us2

/-! ## The claims -/

/-- C1: `Filter::check` returns `Ok` if and only if every rule dst tag and
the default tag are keys of the resolver map; and every filter `Filter::new`
produces has passed this validation, so construction fails with a
missing-resolver error whenever some rule dst tag or the default tag has no
resolver entry. -/
theorem c1_check_ok_iff_tags_present :
    (∀ (f : Filter) (dflt : Nat),
      f.check dflt = Except.ok () ↔
        ((∀ d ∈ f.dsts, (hmGet f.resolvers d).isSome = true) ∧
          (hmGet f.resolvers dflt).isSome = true)) ∧
    (∀ (fs : FileSystem) (mk : MkResolver) (p : Parsed)
        (out : Filter × SocketAddr × Nat × LevelFilter),
      Filter.new fs mk p = Except.ok out →
      out.1.check out.1.default_tag = Except.ok ()) := by
  refine ⟨check_ok_iff, ?_⟩
  intro fs mk p out h
  obtain ⟨flt, a, w, vb⟩ := out
  exact (new_ok_parts fs mk p flt a w vb h).1

/-- C1 witness: the concrete valid configuration `p0` constructs a filter
that passed validation. -/
theorem c1_witness : flt0.check flt0.default_tag = Except.ok () :=
  c1_check_ok_iff_tags_present.2 fs0 mk0 p0 (flt0, 0, 1, 0) rfl

/-- C2: for every filter handed out by `Filter::new` (on which `check`
succeeded), `get_resolver` succeeds on every domain: the missing-resolver
and missing-default-resolver branches are unreachable, whether the matcher
yields a tag or the default tag is used. -/
theorem c2_checked_filter_get_resolver_ok (fs : FileSystem) (mk : MkResolver)
    (p : Parsed) (flt : Filter) (a : SocketAddr) (w : Nat) (vb : LevelFilter)
    (h : Filter.new fs mk p = Except.ok (flt, a, w, vb)) (domain : String) :
    ∃ r, flt.get_resolver domain = Except.ok r := by
  obtain ⟨hc, hm⟩ := new_ok_parts fs mk p flt a w vb h
  exact get_resolver_total flt hc hm domain

/-- C2 witness: on the concrete filter built from `p0`, `get_resolver`
succeeds for the domain `a.b` (matched by the rule). -/
theorem c2_witness : ∃ r, flt0.get_resolver "a.b" = Except.ok r :=
  c2_checked_filter_get_resolver_ok fs0 mk0 p0 flt0 0 1 0 rfl "a.b"

/-- C3: with `disable_ipv6` set, an AAAA query returns `Ok` of an NXDOMAIN
error message carrying the request's id and opcode, and the result is
independent of the matcher and the resolver map (neither is consulted). -/
theorem c3_disable_ipv6_aaaa_short_circuit (f : Filter)
    (h : f.disable_ipv6 = true) (domain : String) (req : Message) :
    f.resolve domain RecordType.AAAA req =
      Except.ok (Message.error_msg req.id req.op_code ResponseCode.NXDomain) ∧
    ∀ (m : Dmatcher Nat) (rs : List (Nat × TokioAsyncResolver)),
      Filter.resolve { f with matcher := m, resolvers := rs } domain
          RecordType.AAAA req =
        Except.ok (Message.error_msg req.id req.op_code ResponseCode.NXDomain) := by
  constructor
  · unfold Filter.resolve
    rw [if_pos ⟨rfl, h⟩]
  · intro m rs
    unfold Filter.resolve
    rw [if_pos ⟨rfl, h⟩]

/-- C3 witness: the IPv6-disabled filter `flt1` short-circuits a concrete
AAAA query. -/
theorem c3_witness :
    flt1.resolve "x" RecordType.AAAA msg0 =
      Except.ok (Message.error_msg msg0.id msg0.op_code ResponseCode.NXDomain) :=
  (c3_disable_ipv6_aaaa_short_circuit flt1 rfl "x" msg0).1

/-- C4 counterexample: `resolve` propagates `get_resolver` errors with `?`,
so on a filter value that never passed `check` (empty resolver map) it
returns `Err`, refuting "for every Filter, resolve never returns Err". -/
theorem c4_counterexample :
    fltBad.resolve "a" RecordType.A msg0 =
      Except.error "Missing default resolver: 0" := rfl

/-- C4 (amended): for every filter `Filter::new` hands out (on which `check`
succeeded), `resolve` never returns `Err`: lookup failures are converted to
`Ok` NXDOMAIN responses rather than propagated. -/
theorem c4_new_filter_resolve_ok (fs : FileSystem) (mk : MkResolver)
    (p : Parsed) (flt : Filter) (a : SocketAddr) (w : Nat) (vb : LevelFilter)
    (h : Filter.new fs mk p = Except.ok (flt, a, w, vb))
    (domain : String) (qtype : RecordType) (req : Message) :
    ∃ msg, flt.resolve domain qtype req = Except.ok msg := by
  obtain ⟨hc, hm⟩ := new_ok_parts fs mk p flt a w vb h
  exact resolve_total flt hc hm domain qtype req

/-- C4 witness: on the concrete filter built from `p0`, a concrete query
resolves to `Ok` (here via the failing resolver, hence NXDOMAIN). -/
theorem c4_witness : ∃ msg, flt0.resolve "a.b" RecordType.A msg0 = Except.ok msg :=
  c4_new_filter_resolve_ok fs0 mk0 p0 flt0 0 1 0 rfl "a.b" RecordType.A msg0

/-- C5: when the short-circuit does not apply and the selected resolver's
lookup fails, `resolve` returns `Ok` of an NXDOMAIN error message carrying
the request's id and opcode. -/
theorem c5_lookup_error_gives_nxdomain (f : Filter) (domain : String)
    (qtype : RecordType) (req : Message) (r : TokioAsyncResolver) (e : String)
    (hshort : ¬(qtype = RecordType.AAAA ∧ f.disable_ipv6 = true))
    (hres : f.get_resolver domain = Except.ok r)
    (hfail : r.lookup domain qtype { expects_multiple_responses := false } =
      Except.error e) :
    f.resolve domain qtype req =
      Except.ok (Message.error_msg req.id req.op_code ResponseCode.NXDomain) := by
  unfold Filter.resolve
  rw [if_neg hshort]
  simp only [hres, hfail]

/-- C5 witness: the filter `flt5` routes a concrete A query to an
always-failing resolver and answers NXDOMAIN with the request's id and
opcode. -/
theorem c5_witness :
    flt5.resolve "x" RecordType.A msg0 =
      Except.ok (Message.error_msg msg0.id msg0.op_code ResponseCode.NXDomain) :=
  c5_lookup_error_gives_nxdomain flt5 "x" RecordType.A msg0 resFail "boom"
    (by decide) rfl rfl

/-- C6: when the selected resolver's lookup succeeds, `resolve` returns the
original request with the looked-up records appended to its answers; every
field other than the answer section (in particular id and opcode) is
unchanged. -/
theorem c6_lookup_success_appends_answers (f : Filter) (domain : String)
    (qtype : RecordType) (req : Message) (r : TokioAsyncResolver) (lk : Lookup)
    (hshort : ¬(qtype = RecordType.AAAA ∧ f.disable_ipv6 = true))
    (hres : f.get_resolver domain = Except.ok r)
    (hok : r.lookup domain qtype { expects_multiple_responses := false } =
      Except.ok lk) :
    f.resolve domain qtype req = Except.ok (req.add_answers lk.records) ∧
    req.add_answers lk.records = { req with answers := req.answers ++ lk.records } := by
  refine ⟨?_, rfl⟩
  unfold Filter.resolve
  rw [if_neg hshort]
  simp only [hres, hok]

/-- C6 witness: the filter `flt6` routes a concrete A query to a resolver
returning one record, and the response is the request with that record
appended. -/
theorem c6_witness :
    flt6.resolve "x" RecordType.A msg0 = Except.ok (msg0.add_answers [⟨42⟩]) ∧
    msg0.add_answers [⟨42⟩] = { msg0 with answers := msg0.answers ++ [⟨42⟩] } :=
  c6_lookup_success_appends_answers flt6 "x" RecordType.A msg0 resOk ⟨[⟨42⟩]⟩
    (by decide) rfl rfl

/-- C7: a rule list containing a rule whose source file cannot be read makes
`insert_rules` fail, and hence `Filter::new` fail: no filter is produced, so
lookups never encounter this error. -/
theorem c7_unreadable_rule_file_fails_construction (fs : FileSystem)
    (rules : List Rule)
    (h : ∃ r ∈ rules, ∃ e, fs r.path = Except.error e) :
    (∃ e2, Filter.insert_rules fs rules = Except.error e2) ∧
    ∀ (mk : MkResolver) (p : Parsed), p.rules = rules →
      ∃ e3, Filter.new fs mk p = Except.error e3 := by
  obtain ⟨e2, h2⟩ := insert_rules_err fs rules h
  refine ⟨⟨e2, h2⟩, ?_⟩
  intro mk p hp
  refine ⟨e2, ?_⟩
  unfold Filter.new
  rw [hp]
  simp only [h2]

/-- C7 witness: under a file system where nothing is readable, the concrete
rule list `rulesBad` fails construction. -/
theorem c7_witness :
    (∃ e2, Filter.insert_rules fsBad rulesBad = Except.error e2) ∧
    ∀ (mk : MkResolver) (p : Parsed), p.rules = rulesBad →
      ∃ e3, Filter.new fsBad mk p = Except.error e3 :=
  c7_unreadable_rule_file_fails_construction fsBad rulesBad
    ⟨{ path := "missing.txt", dst := 1 }, by simp [rulesBad], "io error", rfl⟩

/-- C10: in `insert_upstreams`, an upstream with method `Https(name)` builds
exactly the same resolver entry as one with method `Tls(name)` and the same
tag, ips, port, cache size and timeout (both use the TLS name-server group),
anywhere in the upstream list. -/
theorem c10_https_tls_same_resolver :
    ∀ (mk : MkResolver) (tag : Nat) (ips : List IpAddr) (port cs tmo : Nat)
      (name : String),
      buildEntry mk ⟨tag, UpstreamKind.Https name, ips, port, cs, tmo⟩ =
        buildEntry mk ⟨tag, UpstreamKind.Tls name, ips, port, cs, tmo⟩ ∧
      ∀ (us1 us2 : List UpstreamConfig),
        Filter.insert_upstreams mk
            (us1 ++ ⟨tag, UpstreamKind.Https name, ips, port, cs, tmo⟩ :: us2) =
          Filter.insert_upstreams mk
            (us1 ++ ⟨tag, UpstreamKind.Tls name, ips, port, cs, tmo⟩ :: us2) := by
  intro mk tag ips port cs tmo name
  refine ⟨rfl, ?_⟩
  intro us1 us2
  exact insertUpstreamsGo_congr mk
    ⟨tag, UpstreamKind.Https name, ips, port, cs, tmo⟩
    ⟨tag, UpstreamKind.Tls name, ips, port, cs, tmo⟩ rfl rfl us1 [] us2

end Dcompass

/-- C8: building a hybrid upstream never fails and performs no I/O: it
returns `Upstream::Hybrid` with exactly the builder's tags in order
(regardless of whether those tags exist anywhere), and `add_tag` appends
tags in order. -/
theorem c8_hybrid_build_pure :
    ∀ (b : Droute.HybridBuilder),
      b.async_try_into = Except.ok (Droute.Upstream.Hybrid b.tags) ∧
      ∀ (t : Droute.Label), (b.add_tag t).tags = b.tags ++ [t] :=
  fun _ => ⟨rfl, fun _ => rfl⟩

/-- C9: a UDP or HTTPS builder document omitting `timeout` deserializes with
`timeout = 5`, and an HTTPS builder document omitting `sni` deserializes
with `sni = false`. -/
theorem c9_serde_defaults :
    (∀ (addr : Dcompass.SocketAddr),
      (Droute.UdpBuilder.from_doc { addr := addr, timeout := none }).timeout = 5) ∧
    (∀ (uri : String) (addr : Dcompass.IpAddr) (proxy : Option String)
        (sni : Option Bool),
      (Droute.HttpsBuilder.from_doc
        { uri := uri, addr := addr, proxy := proxy, timeout := none,
          sni := sni }).timeout = 5) ∧
    (∀ (uri : String) (addr : Dcompass.IpAddr) (proxy : Option String)
        (tmo : Option Nat),
      (Droute.HttpsBuilder.from_doc
        { uri := uri, addr := addr, proxy := proxy, timeout := tmo,
          sni := none }).sni = false) :=
  ⟨fun _ => rfl, fun _ _ _ _ => rfl, fun _ _ _ _ => rfl⟩
